import Mathlib

/-!
Verification of the f1-race-reports generator (src/main.py and
src/noheadshot.py) against its specification.

The embedding models the row builder, the team-colour resolver, the
driver-id fallback, the headshot download cache and the table assembly
loop of both scripts. Python dictionary lookups are modelled with
`Option`: an absent key is `none`; a key bound to JSON null carries the
Python value `None`, modelled by `PyVal.null`.
-/

set_option autoImplicit false

namespace F1Report

/-- A Python/JSON scalar value as it appears in a driver record or a
table cell: `null` is Python `None`, the other constructors are strings
and integers. -/
inductive PyVal where
  | null
  | str (s : String)
  | int (n : Int)
  deriving DecidableEq

/-- Python `str()` / f-string interpolation of a scalar:
`None` renders as the text "None". -/
def pyStr : PyVal → String
  | .null => "None"
  | .str s => s
  | .int n => toString n

/-- Python truthiness test `if x:` on an optional string
(`None` and the empty string are falsy). -/
def optFalsy : Option String → Bool
  | none => true
  | some s => s = ""

/-- One raw driver record: each field is `none` when the key is absent
from the JSON object, `some v` when present with value `v`.
The `team_colour` and `headshot_url` fields carry `Option String`
(JSON null or a string). -/
structure DriverRecord where
  driver_id : Option PyVal
  driver_number : Option PyVal
  first_name : Option PyVal
  last_name : Option PyVal
  name_acronym : Option PyVal
  team_name : Option PyVal
  dob : Option PyVal
  country_code : Option PyVal
  team_colour : Option (Option String)
  headshot_url : Option (Option String)
  deriving DecidableEq

/-- A record with every key absent. -/
def emptyDriver : DriverRecord :=
  ⟨none, none, none, none, none, none, none, none, none, none⟩

/-- main.py line 75:
`driver.get("driver_id", f"unknown_{driver.get('driver_number', 'N/A')}")`. -/
def driverId (d : DriverRecord) : PyVal :=
  d.driver_id.getD (.str ("unknown_" ++ pyStr (d.driver_number.getD (.str "N/A"))))

/-- ASCII lower-casing of one character, as Python `str.lower` acts on
the ASCII range relevant to hex colour strings. -/
def lowerChar (c : Char) : Char :=
  if 'A' ≤ c && c ≤ 'Z' then Char.ofNat (c.toNat + 32) else c

/-- Python `s.lower()` (ASCII model). -/
def pyLower (s : String) : String :=
  ⟨s.data.map lowerChar⟩

/-- main.py lines 83-86: resolve the team colour to the hex-string
argument handed to `colors.HexColor`.
`hex_color = driver.get("team_colour")`; if falsy or lowercases to
"none" it is replaced by "CCCCCC"; the result is prefixed with `#`. -/
def teamColourHexMain (tc : Option (Option String)) : String :=
  let hex0 : Option String := tc.getD none
  let hex1 : String :=
    match hex0 with
    | none => "CCCCCC"
    | some s => if s = "" then "CCCCCC" else if pyLower s = "none" then "CCCCCC" else s
  "#" ++ hex1

/-- noheadshot.py lines 51-54: identical colour resolution in the
no-headshot variant. -/
def teamColourHexNoHead (tc : Option (Option String)) : String :=
  let hex0 : Option String := tc.getD none
  let hex1 : String :=
    match hex0 with
    | none => "CCCCCC"
    | some s => if s = "" then "CCCCCC" else if pyLower s = "none" then "CCCCCC" else s
  "#" ++ hex1

/-- A hexadecimal digit. -/
def isHexCh (c : Char) : Bool :=
  c.isDigit || (('a' ≤ c && c ≤ 'f') || ('A' ≤ c && c ≤ 'F'))

/-- Modelled from the spec: the colour constructor (reportlab
`colors.HexColor`) is an external collaborator whose source is not in
this repository; per the spec it accepts a `#`-prefixed hex string and
"may raise" on malformed input. Modelled as: construction succeeds iff
the argument is `#` followed by at least one hex digit. -/
def hexColorParses (s : String) : Bool :=
  match s.data with
  | [] => false
  | c :: rest => c = '#' && rest.length > 0 && rest.all isHexCh

/-- A table cell: either a raw Python value or an RLImage flowable
referring to a local file. -/
inductive Cell where
  | val (v : PyVal)
  | image (path : String)
  deriving DecidableEq

/-- main.py line 80:
`image = RLImage(headshot, width=50, height=50) if headshot else "N/A"`. -/
def imageCell (headshot : Option String) : Cell :=
  if optFalsy headshot then .val (.str "N/A") else .image (headshot.getD "")

/-- noheadshot.py lines 56-63: the six text cells of one data row. -/
def buildRowNoHead (d : DriverRecord) : List PyVal :=
  [ d.driver_number.getD (.str "N/A"),
    .str (pyStr (d.first_name.getD (.str "N/A")) ++ " " ++
          pyStr (d.last_name.getD (.str "N/A"))),
    d.name_acronym.getD (.str "N/A"),
    d.team_name.getD (.str "N/A"),
    d.dob.getD (.str "N/A"),
    d.country_code.getD (.str "N/A") ]

/-- main.py lines 88-96: the seven cells of one data row, the resolved
headshot (result of the download, or `None`) first. -/
def buildRowMain (headshot : Option String) (d : DriverRecord) : List Cell :=
  [ imageCell headshot,
    .val (d.driver_number.getD (.str "N/A")),
    .val (.str (pyStr (d.first_name.getD (.str "N/A")) ++ " " ++
                pyStr (d.last_name.getD (.str "N/A")))),
    .val (d.name_acronym.getD (.str "N/A")),
    .val (d.team_name.getD (.str "N/A")),
    .val (d.dob.getD (.str "N/A")),
    .val (d.country_code.getD (.str "N/A")) ]

/-- main.py line 70: the header row of the with-headshots table. -/
def headerMain : List Cell :=
  [ .val (.str "Headshot"), .val (.str "Driver #"), .val (.str "Full Name"),
    .val (.str "Abbreviation"), .val (.str "Team"), .val (.str "DOB"),
    .val (.str "Nationality") ]

/-- noheadshot.py line 45: the header row of the no-headshots table. -/
def headerNoHead : List PyVal :=
  [ .str "Driver #", .str "Full Name", .str "Abbreviation", .str "Team",
    .str "DOB", .str "Nationality" ]

/-- main.py line 100: column widths of the with-headshots table. -/
def colWidthsMain : List Nat := [60, 60, 150, 80, 140, 100, 100]

/-- noheadshot.py line 67: column widths of the no-headshots table. -/
def colWidthsNoHead : List Nat := [60, 150, 80, 140, 100, 100]

/-- Outcome of `requests.get(image_url)` followed by decode and save:
status 200 with a decodable image, status 200 with decode/resize/save
raising, a non-200 status, or the request itself raising. -/
inductive FetchOutcome where
  | success (decodeOk : Bool)
  | failStatus
  | raised
  deriving DecidableEq

/-- The network collaborator: what fetching a given URL does. -/
structure DLEnv where
  fetch : String → FetchOutcome

/-- Observable trace of one `download_headshot` call: the returned
value, the cache files afterwards, and counts of network requests,
filesystem operations and printed warnings. -/
structure DLTrace where
  ret : Option String
  files : List String
  netCalls : Nat
  fsOps : Nat
  warnings : Nat
  deriving DecidableEq

/-- main.py line 33: `f"headshots/{driver_id}.png"`. -/
def headshotPath (driver_id : PyVal) : String :=
  "headshots/" ++ pyStr driver_id ++ ".png"

/-- main.py lines 28-49, `download_headshot(image_url, driver_id)`:
falsy URL returns `None` at once; otherwise the cache directory is
ensured (one fs op) and the expected path tested (one fs op); a hit
returns the path; otherwise one network request is made and, on status
200 with a successful decode/resize/save (one fs op), the file is
created and its path returned; on a non-200 status `None` is returned
with no message; on any exception the warning is printed and `None`
returned. -/
def download_headshot (env : DLEnv) (files : List String)
    (image_url : Option String) (driver_id : PyVal) : DLTrace :=
  if optFalsy image_url then
    ⟨none, files, 0, 0, 0⟩
  else
    let fp := headshotPath driver_id
    if files.contains fp then
      ⟨some fp, files, 0, 2, 0⟩
    else
      match env.fetch (image_url.getD "") with
      | .success true => ⟨some fp, fp :: files, 1, 3, 0⟩
      | .success false => ⟨none, files, 1, 2, 1⟩
      | .failStatus => ⟨none, files, 1, 2, 0⟩
      | .raised => ⟨none, files, 1, 2, 1⟩

/-- Accumulator of the noheadshot.py populate loop (lines 48-64):
the growing `table_data` and `row_colors`. -/
structure NoHeadAcc where
  table : List (List PyVal)
  rowColors : List String
  deriving DecidableEq

/-- One iteration of the noheadshot.py loop body (lines 49-64). -/
def noHeadStep (acc : NoHeadAcc) (d : DriverRecord) : NoHeadAcc :=
  ⟨acc.table ++ [buildRowNoHead d],
   acc.rowColors ++ [teamColourHexNoHead d.team_colour]⟩

/-- noheadshot.py lines 45-64: header row then one appended row per
record. -/
def create_table_nohead (rs : List DriverRecord) : NoHeadAcc :=
  rs.foldl noHeadStep ⟨[headerNoHead], []⟩

/-- Accumulator of the main.py populate loop: `table_data`,
`row_colors` and the headshot cache state threaded through the
downloads. -/
structure MainAcc where
  table : List (List Cell)
  rowColors : List String
  files : List String

/-- One iteration of the main.py loop body (lines 74-97). -/
def mainStep (env : DLEnv) (acc : MainAcc) (d : DriverRecord) : MainAcc :=
  let did := driverId d
  let url : Option String := d.headshot_url.getD none
  let dl : Option String × List String :=
    if optFalsy url then (none, acc.files)
    else
      let t := download_headshot env acc.files url did
      (t.ret, t.files)
  ⟨acc.table ++ [buildRowMain dl.1 d],
   acc.rowColors ++ [teamColourHexMain d.team_colour],
   dl.2⟩

/-- main.py lines 70-101: header row then one appended row per record,
threading the cache state. -/
def create_table_main (env : DLEnv) (files0 : List String)
    (rs : List DriverRecord) : MainAcc :=
  rs.foldl (mainStep env) ⟨[headerMain], [], files0⟩

/-! ## Helper lemmas -/

theorem noHead_foldl_table (rs : List DriverRecord) (acc : NoHeadAcc) :
    (rs.foldl noHeadStep acc).table = acc.table ++ rs.map buildRowNoHead := by
  induction rs generalizing acc with
  | nil => simp
  | cons d rs ih => simp [ih, noHeadStep, List.append_assoc]

theorem main_foldl_table_len (env : DLEnv) (rs : List DriverRecord)
    (acc : MainAcc) :
    (rs.foldl (mainStep env) acc).table.length = acc.table.length + rs.length := by
  induction rs generalizing acc with
  | nil => simp
  | cons d rs ih => simp [ih, mainStep]; omega

/-! ## Claims -/

/-- C1: in the row built from a record, each display field absent from
the record renders as the exact string "N/A" (not the empty string),
and the full-name cell is first and last name joined by a space, each
independently defaulting to "N/A", so a record with only a last name
renders "N/A LastName". -/
theorem claim1_missing_fields_render_NA (d : DriverRecord) :
    (d.driver_number = none → (buildRowNoHead d).get? 0 = some (.str "N/A"))
    ∧ (d.name_acronym = none → (buildRowNoHead d).get? 2 = some (.str "N/A"))
    ∧ (d.team_name = none → (buildRowNoHead d).get? 3 = some (.str "N/A"))
    ∧ (d.dob = none → (buildRowNoHead d).get? 4 = some (.str "N/A"))
    ∧ (d.country_code = none → (buildRowNoHead d).get? 5 = some (.str "N/A"))
    ∧ (buildRowNoHead d).get? 1 =
        some (.str (pyStr (d.first_name.getD (.str "N/A")) ++ " " ++
                    pyStr (d.last_name.getD (.str "N/A"))))
    ∧ (∀ s : String, d.first_name = none → d.last_name = some (.str s) →
        (buildRowNoHead d).get? 1 = some (.str ("N/A " ++ s)))
    ∧ PyVal.str "N/A" ≠ PyVal.str "" := by
  refine ⟨fun h => by simp [buildRowNoHead, h],
          fun h => by simp [buildRowNoHead, h],
          fun h => by simp [buildRowNoHead, h],
          fun h => by simp [buildRowNoHead, h],
          fun h => by simp [buildRowNoHead, h],
          by simp [buildRowNoHead],
          fun s h1 h2 => by simp [buildRowNoHead, h1, h2, pyStr],
          by simp⟩

/-- Witness for C1 at a concrete record with only a last name. -/
theorem claim1_witness :
    (buildRowNoHead ⟨none, none, none, some (.str "Verstappen"), none, none,
        none, none, none, none⟩).get? 1 = some (.str "N/A Verstappen")
    ∧ (buildRowNoHead ⟨none, none, none, some (.str "Verstappen"), none, none,
        none, none, none, none⟩).get? 0 = some (.str "N/A") := by
  exact ⟨(claim1_missing_fields_render_NA
            ⟨none, none, none, some (.str "Verstappen"), none, none,
             none, none, none, none⟩).2.2.2.2.2.2.1 "Verstappen" rfl rfl,
         (claim1_missing_fields_render_NA
            ⟨none, none, none, some (.str "Verstappen"), none, none,
             none, none, none, none⟩).1 rfl⟩

/-- C2: the resolved row background colour is the default gray #CCCCCC
exactly on the default branch (team-colour absent, null, empty, or
case-insensitively "none"); otherwise it is the given hex string
prefixed with #, so "3671C6" yields exactly #3671C6. -/
theorem claim2_team_colour_resolution :
    teamColourHexMain none = "#CCCCCC"
    ∧ teamColourHexMain (some none) = "#CCCCCC"
    ∧ teamColourHexMain (some (some "")) = "#CCCCCC"
    ∧ (∀ s : String, pyLower s = "none" →
        teamColourHexMain (some (some s)) = "#CCCCCC")
    ∧ (∀ s : String, ¬ s = "" → ¬ pyLower s = "none" →
        teamColourHexMain (some (some s)) = "#" ++ s)
    ∧ teamColourHexMain (some (some "3671C6")) = "#3671C6" := by
  refine ⟨rfl, rfl, by decide, ?_, ?_, by decide⟩
  · intro s h
    by_cases he : s = "" <;> simp [teamColourHexMain, he, h]
  · intro s h1 h2
    simp [teamColourHexMain, h1, h2]

/-- Witness for C2 at the concrete colour "NoNe" (case-insensitive
default) and "3671C6" (pass-through). -/
theorem claim2_witness :
    teamColourHexMain (some (some "NoNe")) = "#CCCCCC"
    ∧ teamColourHexMain (some (some "3671C6")) = "#3671C6" := by
  exact ⟨claim2_team_colour_resolution.2.2.2.1 "NoNe" (by decide),
         claim2_team_colour_resolution.2.2.2.2.2⟩

/-- C3: headshot resolution is idempotent per driver id. If the cache
file for the id exists and the URL is non-falsy, the call returns that
path with no network request, against any network environment and any
URL; and whenever a call returns a path, repeating the call with the
same arguments on the resulting state returns the same path and makes
no network request. -/
theorem claim3_download_idempotent (env env2 : DLEnv) (files : List String)
    (url url2 : Option String) (id : PyVal) :
    (optFalsy url2 = false → headshotPath id ∈ files →
      download_headshot env2 files url2 id =
        ⟨some (headshotPath id), files, 0, 2, 0⟩)
    ∧ ((download_headshot env files url id).ret.isSome = true →
        (download_headshot env (download_headshot env files url id).files
            url id).ret = (download_headshot env files url id).ret
        ∧ (download_headshot env (download_headshot env files url id).files
            url id).netCalls = 0) := by
  constructor
  · intro h1 h2
    simp [download_headshot, h1, h2]
  · intro hsome
    by_cases hu : optFalsy url = true
    · simp [download_headshot, hu] at hsome
    · rw [Bool.not_eq_true] at hu
      by_cases hc : headshotPath id ∈ files
      · simp [download_headshot, hu, hc]
      · rcases hf : env.fetch (url.getD "") with ok | _ | _
        · rcases ok with _ | _
          · simp [download_headshot, hu, hc, hf] at hsome
          · simp [download_headshot, hu, hc, hf]
        · simp [download_headshot, hu, hc, hf] at hsome
        · simp [download_headshot, hu, hc, hf] at hsome

/-- Witness for C3: concrete cache hit, and a successful download
followed by a cache hit. -/
theorem claim3_witness :
    download_headshot ⟨fun _ => .raised⟩ ["headshots/44.png"]
        (some "http://x/44.png") (.int 44) =
      ⟨some "headshots/44.png", ["headshots/44.png"], 0, 2, 0⟩
    ∧ (download_headshot ⟨fun _ => .success true⟩
          (download_headshot ⟨fun _ => .success true⟩ []
            (some "http://x/44.png") (.int 44)).files
          (some "http://x/44.png") (.int 44)).ret =
        (download_headshot ⟨fun _ => .success true⟩ []
          (some "http://x/44.png") (.int 44)).ret := by
  exact ⟨(claim3_download_idempotent ⟨fun _ => .raised⟩ ⟨fun _ => .raised⟩
            ["headshots/44.png"] none (some "http://x/44.png") (.int 44)).1
            (by decide) (by decide),
         ((claim3_download_idempotent ⟨fun _ => .success true⟩
            ⟨fun _ => .success true⟩ [] (some "http://x/44.png") none
            (.int 44)).2 (by decide)).1⟩

/-- C4: with an absent or empty image URL, `download_headshot` returns
None immediately: no filesystem operation, no network request, and the
cache state is unchanged. -/
theorem claim4_falsy_url_no_access (env : DLEnv) (files : List String)
    (url : Option String) (id : PyVal) (h : optFalsy url = true) :
    download_headshot env files url id = ⟨none, files, 0, 0, 0⟩ := by
  simp [download_headshot, h]

/-- Witness for C4 at the empty URL. -/
theorem claim4_witness :
    download_headshot ⟨fun _ => .success true⟩ [] (some "") (.int 1) =
      ⟨none, [], 0, 0, 0⟩ :=
  claim4_falsy_url_no_access ⟨fun _ => .success true⟩ [] (some "") (.int 1)
    (by decide)

/-- Counterexample to C5 as stated: with a non-success (non-200)
response and no cached file, `download_headshot` returns None without
printing any warning — the warning is printed only when an exception is
raised, not on a bad status code. -/
theorem claim5_counterexample :
    (download_headshot ⟨fun _ => .failStatus⟩ [] (some "http://x/1.png")
        (.int 1)).warnings = 0
    ∧ (download_headshot ⟨fun _ => .failStatus⟩ [] (some "http://x/1.png")
        (.int 1)).ret = none := by
  constructor <;> rfl

/-- C5 amended: with a non-empty URL and no pre-existing cache file,
any unsuccessful fetch (non-200 status, decode error, or a raised
request error) returns None and writes no cache file; a warning is
emitted exactly when an exception was raised (decode error or request
failure), while a non-200 status is silent. The failure never aborts:
the call still returns a trace and the record is treated as
asset-less. -/
theorem claim5_failed_fetch_degrades (env : DLEnv) (files : List String)
    (url : Option String) (id : PyVal)
    (hurl : optFalsy url = false)
    (hmiss : headshotPath id ∉ files)
    (hfail : env.fetch (url.getD "") ≠ .success true) :
    (download_headshot env files url id).ret = none
    ∧ (download_headshot env files url id).files = files
    ∧ ((download_headshot env files url id).warnings = 1 ↔
        (env.fetch (url.getD "") = .success false
          ∨ env.fetch (url.getD "") = .raised)) := by
  rcases hf : env.fetch (url.getD "") with ok | _ | _
  · rcases ok with _ | _
    · simp [download_headshot, hurl, hmiss, hf]
    · rw [hf] at hfail; simp at hfail
  · simp [download_headshot, hurl, hmiss, hf]
  · simp [download_headshot, hurl, hmiss, hf]

/-- Witness for C5 amended at a concrete decode failure. -/
theorem claim5_witness :
    (download_headshot ⟨fun _ => .success false⟩ [] (some "http://x/1.png")
        (.int 1)).ret = none
    ∧ (download_headshot ⟨fun _ => .success false⟩ [] (some "http://x/1.png")
        (.int 1)).warnings = 1 := by
  refine ⟨(claim5_failed_fetch_degrades ⟨fun _ => .success false⟩ []
            (some "http://x/1.png") (.int 1) (by decide) (by decide)
            (by decide)).1, ?_⟩
  exact ((claim5_failed_fetch_degrades ⟨fun _ => .success false⟩ []
            (some "http://x/1.png") (.int 1) (by decide) (by decide)
            (by decide)).2.2).2 (Or.inl rfl)

/-- Counterexample to C6 as stated: for a record missing both the
explicit id and the driver number, the synthesized id is the string
"unknown_N/A", not the bare sentinel "N/A". -/
theorem claim6_counterexample :
    driverId emptyDriver = .str "unknown_N/A"
    ∧ driverId emptyDriver ≠ .str "N/A" := by
  constructor <;> decide

/-- C6 amended: the caching id is the record's explicit id if the key
is present; otherwise it is "unknown_" followed by the rendering of the
driver number, which is the sentinel "N/A" when the number is also
absent — so a record missing both yields the id "unknown_N/A". -/
theorem claim6_driver_id_fallback (d : DriverRecord) :
    (∀ v : PyVal, d.driver_id = some v → driverId d = v)
    ∧ (d.driver_id = none → driverId d =
        .str ("unknown_" ++ pyStr (d.driver_number.getD (.str "N/A"))))
    ∧ (d.driver_id = none → d.driver_number = none →
        driverId d = .str "unknown_N/A") := by
  refine ⟨fun v h => by simp [driverId, h],
          fun h => by simp [driverId, h],
          fun h h2 => by simp [driverId, h, h2, pyStr]⟩

/-- Witness for C6 amended at a record with neither id nor number. -/
theorem claim6_witness :
    driverId emptyDriver = .str "unknown_N/A" := by
  exact (claim6_driver_id_fallback emptyDriver).2.2 rfl rfl

/-- C7: for every record list, the assembled table is one header row
plus one data row per record in input order, so its length is the
record count plus one; with the empty list only the header row is
produced (in both variants, for any network environment and initial
cache state). -/
theorem claim7_table_row_count (env : DLEnv) (files0 : List String)
    (rs : List DriverRecord) :
    (create_table_nohead rs).table = headerNoHead :: rs.map buildRowNoHead
    ∧ (create_table_nohead rs).table.length = rs.length + 1
    ∧ (create_table_main env files0 rs).table.length = rs.length + 1
    ∧ (create_table_nohead ([] : List DriverRecord)).table = [headerNoHead]
    ∧ (create_table_main env files0 ([] : List DriverRecord)).table =
        [headerMain] := by
  refine ⟨?_, ?_, ?_, rfl, rfl⟩
  · simpa using noHead_foldl_table rs ⟨[headerNoHead], []⟩
  · have h := noHead_foldl_table rs ⟨[headerNoHead], []⟩
    simp [create_table_nohead, h]
  · have h := main_foldl_table_len env rs ⟨[headerMain], [], files0⟩
    simpa [create_table_main, Nat.add_comm] using h

/-- C8: a non-empty team colour that is not case-insensitively "none"
but is not valid hex (here "GGGGGG") is passed through unguarded: the
resolver hands "#GGGGGG" to colour construction, which fails to parse
it, and the result is not the default gray — there is no fallback on
this path. -/
theorem claim8_malformed_hex_unguarded :
    teamColourHexMain (some (some "GGGGGG")) = "#GGGGGG"
    ∧ hexColorParses "#GGGGGG" = false
    ∧ hexColorParses "#CCCCCC" = true
    ∧ teamColourHexMain (some (some "GGGGGG")) ≠ "#CCCCCC" := by
  refine ⟨by decide, by decide, by decide, by decide⟩

/-- C9: on the same record, the with-headshots row is exactly the
headshot cell prepended to the no-headshots row, the two variants
resolve the team colour identically, and the with-headshots column
width schema is the no-headshots schema with one extra leading
column. -/
theorem claim9_variants_agree (d : DriverRecord) (headshot : Option String) :
    buildRowMain headshot d = imageCell headshot ::
      (buildRowNoHead d).map Cell.val
    ∧ teamColourHexMain d.team_colour = teamColourHexNoHead d.team_colour
    ∧ colWidthsMain = 60 :: colWidthsNoHead := by
  refine ⟨by simp [buildRowMain, buildRowNoHead], ?_, by decide⟩
  simp [teamColourHexMain, teamColourHexNoHead]

/-- C10: the "N/A" sentinel is substituted only when a key is entirely
absent; a display field present but bound to null flows into the row as
the Python None value (rendered "None" inside the interpolated
full-name string), and for the team colour the key lookup alone maps a
present null and an absent key to the same value, which only the
falsiness check then sends to the default gray. -/
theorem claim10_present_null_flows (d : DriverRecord)
    (headshot : Option String) :
    (d.driver_number = some .null →
      (buildRowMain headshot d).get? 1 = some (.val .null))
    ∧ (d.name_acronym = some .null →
        (buildRowMain headshot d).get? 3 = some (.val .null))
    ∧ (d.team_name = some .null →
        (buildRowMain headshot d).get? 4 = some (.val .null))
    ∧ (d.dob = some .null →
        (buildRowMain headshot d).get? 5 = some (.val .null))
    ∧ (d.country_code = some .null →
        (buildRowMain headshot d).get? 6 = some (.val .null))
    ∧ (∀ s : String, d.first_name = some .null → d.last_name = some (.str s) →
        (buildRowMain headshot d).get? 2 = some (.val (.str ("None " ++ s))))
    ∧ ((some none : Option (Option String)).getD none =
        (none : Option (Option String)).getD none)
    ∧ teamColourHexMain (some none) = "#CCCCCC" := by
  refine ⟨fun h => by simp [buildRowMain, h],
          fun h => by simp [buildRowMain, h],
          fun h => by simp [buildRowMain, h],
          fun h => by simp [buildRowMain, h],
          fun h => by simp [buildRowMain, h],
          fun s h1 h2 => by simp [buildRowMain, h1, h2, pyStr],
          rfl, rfl⟩

/-- Witness for C10 at a record whose fields are present but null. -/
theorem claim10_witness :
    (buildRowMain none ⟨none, some .null, some .null, some (.str "Verstappen"),
        none, none, none, none, some none, none⟩).get? 1 =
      some (.val .null)
    ∧ (buildRowMain none ⟨none, some .null, some .null,
        some (.str "Verstappen"), none, none, none, none, some none,
        none⟩).get? 2 = some (.val (.str "None Verstappen")) := by
  exact ⟨(claim10_present_null_flows ⟨none, some .null, some .null,
            some (.str "Verstappen"), none, none, none, none, some none,
            none⟩ none).1 rfl,
         (claim10_present_null_flows ⟨none, some .null, some .null,
            some (.str "Verstappen"), none, none, none, none, some none,
            none⟩ none).2.2.2.2.2.1 "Verstappen" rfl rfl⟩

end F1Report
